import Mathlib

/-!
Shallow embedding of `unified_data_schema.py`: a static question catalogue for
the State of Open Data surveys (2017-2024) plus pure query and harmonization
utilities.  Python dictionaries are modelled as association lists in insertion
order, with `dictInsert` / `dictUpdate` reproducing Python's `d[k] = v` and
`d.update(other)` semantics (replace in place when the key exists, append
otherwise).  Dict comprehensions over `.items()` become `List.filter`.
-/

/-- Python `d[k] = v` on an insertion-ordered dictionary: if `k` is already a
key its value is replaced in place, otherwise `(k, v)` is appended. -/
def dictInsert {α β : Type} [BEq α] (d : List (α × β)) (k : α) (v : β) :
    List (α × β) :=
  if d.any (fun p => p.1 == k) then
    d.map (fun p => if p.1 == k then (k, v) else p)
  else
    d ++ [(k, v)]

/-- Python `d.update(new)`: inserts the entries of `new` into `d` in order. -/
def dictUpdate {α β : Type} [BEq α] (d new : List (α × β)) : List (α × β) :=
  new.foldl (fun acc p => dictInsert acc p.1 p.2) d

/-- Types of survey questions (the `QuestionType` enum). -/
inductive QuestionType where
  | LIKERT_5
  | LIKERT_4
  | LIKERT_3
  | MULTIPLE_CHOICE
  | MULTIPLE_SELECT
  | OPEN_TEXT
  | DEMOGRAPHIC
  | BINARY
deriving DecidableEq

namespace ResponseScale

/-- Standard 5-point agreement scale (`ResponseScale.AGREEMENT_5`). -/
def AGREEMENT_5 : List String :=
  ["Strongly disagree", "Somewhat disagree", "Neutral", "Somewhat agree", "Strongly agree"]

/-- Agreement scale variant with an explicit no-opinion midpoint. -/
def AGREEMENT_5_ALT : List String :=
  ["Strongly disagree", "Somewhat disagree", "Neutral / No opinion", "Somewhat agree", "Strongly agree"]

/-- Standard 4-point frequency scale (`ResponseScale.FREQUENCY_4`). -/
def FREQUENCY_4 : List String :=
  ["Never", "Rarely", "Sometimes", "Frequently"]

/-- Frequency scale variant (`ResponseScale.FREQUENCY_4_ALT`). -/
def FREQUENCY_4_ALT : List String :=
  ["Never", "Rarely", "Often", "Always"]

/-- Yes/no/unsure scale (`ResponseScale.YES_NO_UNSURE`). -/
def YES_NO_UNSURE : List String :=
  ["Yes", "No", "Unsure"]

/-- Yes/no/don't-know scale (`ResponseScale.YES_NO_DONT_KNOW`). -/
def YES_NO_DONT_KNOW : List String :=
  ["Yes", "No", "Don\x27t know"]

/-- 3-option credit-attribution scale (`ResponseScale.CREDIT_3`). -/
def CREDIT_3 : List String :=
  ["No, too little credit", "Yes", "No, too much credit"]

/-- 3-level familiarity scale (`ResponseScale.FAMILIARITY_3`). -/
def FAMILIARITY_3 : List String :=
  ["I am familiar with the data principles",
   "I have previously heard of the data principles but I am not familiar with them",
   "I have never heard of the data principles before now"]

end ResponseScale

/-- Maps a question across survey years (the `QuestionMapping` dataclass).
`column_mappings` is the year-to-column dictionary in insertion order. -/
structure QuestionMapping where
  question_id : String
  question_text : String
  question_type : QuestionType
  response_scale : List String
  years_available : List Int
  column_mappings : List (Int × String)
  notes : Option String := none
deriving DecidableEq

namespace UnifiedSchema

/-- Core questions available across multiple years
(`UnifiedSchema._define_core_questions`). -/
def _define_core_questions : List (String × QuestionMapping) :=
  [("open_access_attitude", QuestionMapping.mk
      "open_access_attitude"
      "Making research articles open access should be common scholarly practice"
      QuestionType.LIKERT_5
      ResponseScale.AGREEMENT_5
      [2021, 2022, 2023, 2024]
      [(2021, "Q2.7_1"), (2022, "Q2.11_1"), (2023, "Q2.10.a"), (2024, "Q12_1")]
      (some "Highest consistency across years - core trend indicator")),
   ("open_data_attitude", QuestionMapping.mk
      "open_data_attitude"
      "Making research data openly available should be common scholarly practice"
      QuestionType.LIKERT_5
      ResponseScale.AGREEMENT_5
      [2021, 2022, 2023, 2024]
      [(2021, "Q2.7_2"), (2022, "Q2.11_2"), (2023, "Q2.10.b"), (2024, "Q12_2")]
      (some "Core data sharing attitude - primary outcome measure")),
   ("open_peer_review_attitude", QuestionMapping.mk
      "open_peer_review_attitude"
      "Making peer review open should be common scholarly practice"
      QuestionType.LIKERT_5
      ResponseScale.AGREEMENT_5
      [2022, 2023, 2024]
      [(2022, "Q2.11_3"), (2023, "Q2.10.c"), (2024, "Q12_3")]
      (some "Introduced in 2022 - good trend indicator")),
   ("preprinting_attitude", QuestionMapping.mk
      "preprinting_attitude"
      "Preprinting should be common scholarly practice"
      QuestionType.LIKERT_5
      ResponseScale.AGREEMENT_5
      [2022, 2023, 2024]
      [(2022, "Q2.11_4"), (2023, "Q2.10.d"), (2024, "Q12_4")]
      (some "Introduced in 2022 - tracks preprint adoption attitudes")),
   ("data_sharing_frequency", QuestionMapping.mk
      "data_sharing_frequency"
      "How often have you made your research data openly available?"
      QuestionType.LIKERT_4
      ResponseScale.FREQUENCY_4
      [2017]
      [(2017, "Q2.2")]
      (some "Core behavioral measure - need to map similar questions in other years")),
   ("credit_for_sharing", QuestionMapping.mk
      "credit_for_sharing"
      "Do you think researchers currently get sufficient credit for sharing data?"
      QuestionType.MULTIPLE_CHOICE
      ResponseScale.CREDIT_3
      [2019, 2022]
      [(2019, "Q2.4"), (2022, "Q3.2")]
      (some "Important motivational factor")),
   ("fair_principles_awareness", QuestionMapping.mk
      "fair_principles_awareness"
      "How familiar are you with FAIR data principles (Findable, Accessible, Interoperable, Reusable)?"
      QuestionType.MULTIPLE_CHOICE
      ResponseScale.FAMILIARITY_3
      [2022, 2023]
      [(2022, "Q3.1_1"), (2023, "Q2.11.a")]
      (some "Key knowledge indicator for data management"))]

/-- Demographic questions across years
(`UnifiedSchema._define_demographic_questions`). -/
def _define_demographic_questions : List (String × QuestionMapping) :=
  [("job_title", QuestionMapping.mk
      "job_title"
      "Which of the following job titles best applies to you?"
      QuestionType.MULTIPLE_CHOICE
      ["Professor", "Associate Professor", "Research Scientist", "PhD Student", "Postdoc", "Other"]
      [2017, 2019, 2022, 2023, 2024]
      [(2017, "Q10.5"), (2019, "Q6.5"), (2022, "Q2.6"), (2023, "Q2.6"), (2024, "Q7")]
      (some "Response categories vary by year but can be harmonized")),
   ("research_area", QuestionMapping.mk
      "research_area"
      "Which of the following best describes your primary area of interest?"
      QuestionType.MULTIPLE_CHOICE
      ["Medicine", "Engineering", "Physics", "Biology", "Other"]
      [2021, 2022, 2023, 2024]
      [(2021, "Q2.4"), (2022, "Q2.7"), (2023, "Q2.7"), (2024, "Q8")]
      (some "Consistent categories with some variation")),
   ("publication_history", QuestionMapping.mk
      "publication_history"
      "When was the last occasion that you published or submitted a manuscript to a journal?"
      QuestionType.MULTIPLE_CHOICE
      ["Within the last year", "1-2 years ago", "3-5 years ago", "More than 5 years ago", "Never"]
      [2021, 2022, 2023, 2024]
      [(2021, "Q2.1"), (2022, "Q2.3"), (2023, "Q2.1"), (2024, "Q4")]
      (some "Good indicator of research activity level")),
   ("organization_type", QuestionMapping.mk
      "organization_type"
      "Which type of organisation do you work in?"
      QuestionType.MULTIPLE_CHOICE
      ["University", "Research institution", "Medical school", "Private company", "Other"]
      [2022, 2023, 2024]
      [(2022, "Q2.4"), (2023, "Q2.4"), (2024, "Q5")]
      (some "Institutional context indicator"))]

/-- Supplementary questions of interest
(`UnifiedSchema._define_supplementary_questions`). -/
def _define_supplementary_questions : List (String × QuestionMapping) :=
  [("funder_mandate_support", QuestionMapping.mk
      "funder_mandate_support"
      "Should funders make the sharing of research data part of their requirements for awarding grants?"
      QuestionType.LIKERT_3
      ResponseScale.YES_NO_DONT_KNOW
      [2019]
      [(2019, "Q2.2")]
      (some "Important policy question - 2019 focus")),
   ("national_mandate_support", QuestionMapping.mk
      "national_mandate_support"
      "How supportive would you be of a national mandate for making primary research data openly available?"
      QuestionType.LIKERT_5
      ["Strongly oppose", "Somewhat oppose", "Neutral", "Somewhat support", "Strongly support"]
      [2019]
      [(2019, "Q2.3")]
      (some "Policy attitude indicator")),
   ("care_principles_awareness", QuestionMapping.mk
      "care_principles_awareness"
      "How familiar are you with CARE principles for Indigenous Data Governance?"
      QuestionType.MULTIPLE_CHOICE
      ResponseScale.FAMILIARITY_3
      [2022]
      [(2022, "Q3.1_2")]
      (some "Ethical data governance awareness"))]

/-- Questions with rich historical data, mainly 2017
(`UnifiedSchema._define_historical_questions`). -/
def _define_historical_questions : List (String × QuestionMapping) :=
  [("data_sharing_motivations", QuestionMapping.mk
      "data_sharing_motivations"
      "What circumstances would motivate you to share your data?"
      QuestionType.MULTIPLE_SELECT
      ["Institution requirement", "Funder requirement", "Transparency", "Credit", "Other"]
      [2017]
      [(2017, "Q2.3_*")]
      (some "Comprehensive motivation analysis - 2017 baseline")),
   ("data_sharing_effort", QuestionMapping.mk
      "data_sharing_effort"
      "How much effort is typically required to make your data re-usable by others?"
      QuestionType.LIKERT_4
      ["No effort", "Little effort", "Some effort", "A lot of effort"]
      [2017]
      [(2017, "Q2.5")]
      (some "Barrier assessment - effort required")),
   ("data_ownership_before_pub", QuestionMapping.mk
      "data_ownership_before_pub"
      "Who owns the data you produce during the course of your research before publication?"
      QuestionType.MULTIPLE_SELECT
      ["You", "Your institution", "Your funder", "Other"]
      [2017]
      [(2017, "Q2.6_*")]
      (some "Ownership understanding - pre-publication")),
   ("data_ownership_after_pub", QuestionMapping.mk
      "data_ownership_after_pub"
      "Who owns the data you produce during the course of your research after publication?"
      QuestionType.MULTIPLE_SELECT
      ["You", "Your institution", "Your funder", "Other"]
      [2017]
      [(2017, "Q2.7_*")]
      (some "Ownership understanding - post-publication"))]

/-- `self.core_questions` as set by `UnifiedSchema.__init__`. -/
def core_questions : List (String × QuestionMapping) := _define_core_questions

/-- `self.demographic_questions` as set by `UnifiedSchema.__init__`. -/
def demographic_questions : List (String × QuestionMapping) := _define_demographic_questions

/-- `self.supplementary_questions` as set by `UnifiedSchema.__init__`. -/
def supplementary_questions : List (String × QuestionMapping) := _define_supplementary_questions

/-- `self.historical_questions` as set by `UnifiedSchema.__init__`. -/
def historical_questions : List (String × QuestionMapping) := _define_historical_questions

/-- `UnifiedSchema.get_all_questions`: an empty dict updated with the four
category dicts in order (core, demographic, supplementary, historical). -/
def get_all_questions : List (String × QuestionMapping) :=
  dictUpdate (dictUpdate (dictUpdate (dictUpdate [] core_questions)
    demographic_questions) supplementary_questions) historical_questions

/-- `UnifiedSchema.get_questions_by_year`: the dict comprehension keeping the
questions whose `years_available` contains `year`. -/
def get_questions_by_year (year : Int) : List (String × QuestionMapping) :=
  get_all_questions.filter (fun p => year ∈ p.2.years_available)

/-- `UnifiedSchema.get_longitudinal_questions`: the dict comprehension keeping
the questions with at least `min_years` available years (default 2). -/
def get_longitudinal_questions (min_years : Int := 2) :
    List (String × QuestionMapping) :=
  get_all_questions.filter (fun p => (p.2.years_available.length : Int) ≥ min_years)

/-- `UnifiedSchema.get_core_trend_questions`: the dict comprehension over
`self.core_questions` only, keeping questions with at least 3 years. -/
def get_core_trend_questions : List (String × QuestionMapping) :=
  core_questions.filter (fun p => p.2.years_available.length ≥ 3)

end UnifiedSchema

/-- `harmonize_response_scale`: map a response from a source scale to the
label at the same index of a target scale, falling through to the input
response when the response is not in the source scale or the index is out of
range for the target scale.  The list access `target_scale[idx]` carries the
bound established by the guard, exactly as in the Python source. -/
def harmonize_response_scale (response : String)
    (source_scale target_scale : List String) : String :=
  if response ∈ source_scale then
    let idx := source_scale.indexOf response
    if h : idx < target_scale.length then
      target_scale.get ⟨idx, h⟩
    else
      response
  else
    response

/-- Fallback-free restatement of `harmonize_response_scale` in which the list
access uses `List.getD` with an explicit default instead of the proof-carrying
access: equality with the source function shows the source's indexing is never
reached out of bounds. -/
def harmonize_response_scale_total (response : String)
    (source_scale target_scale : List String) : String :=
  if response ∈ source_scale then
    if source_scale.indexOf response < target_scale.length then
      target_scale.getD (source_scale.indexOf response) response
    else response
  else response

/-- `create_harmonized_column_mapping`: builds a fresh schema and projects
every question of the full catalogue to its `column_mappings`, assigning
`mapping[qid] = question.column_mappings` in iteration order. -/
def create_harmonized_column_mapping : List (String × List (Int × String)) :=
  UnifiedSchema.get_all_questions.foldl
    (fun mapping p => dictInsert mapping p.1 p.2.column_mappings) []

/-- C1: `harmonize_response_scale` returns the input response unchanged
whenever the response is not a member of the source scale, and whenever the
response's position in the source scale is at least the length of the target
scale; in particular, "Strongly agree" with the 5-item agreement source scale
and the 4-item frequency target scale is returned unchanged. -/
theorem harmonize_response_scale_passthrough :
    (∀ (r : String) (ss ts : List String),
        r ∉ ss → harmonize_response_scale r ss ts = r) ∧
    (∀ (r : String) (ss ts : List String),
        ts.length ≤ ss.indexOf r → harmonize_response_scale r ss ts = r) ∧
    harmonize_response_scale "Strongly agree" ResponseScale.AGREEMENT_5
      ResponseScale.FREQUENCY_4 = "Strongly agree" := by
  refine ⟨?_, ?_, by decide⟩
  · intro r ss ts h
    simp [harmonize_response_scale, h]
  · intro r ss ts h
    by_cases hm : r ∈ ss
    · simp only [harmonize_response_scale, if_pos hm]
      rw [dif_neg (by omega)]
    · simp [harmonize_response_scale, hm]

/-- Witness for C1: both pass-through cases at concrete inputs — a response
not in the source scale, and a response whose source position (index 4)
exceeds the last index of the 4-item target scale. -/
theorem harmonize_response_scale_passthrough_witness :
    harmonize_response_scale "Unknown" ResponseScale.AGREEMENT_5
      ResponseScale.FREQUENCY_4 = "Unknown" ∧
    harmonize_response_scale "Strongly agree" ResponseScale.AGREEMENT_5
      ResponseScale.FREQUENCY_4 = "Strongly agree" :=
  ⟨harmonize_response_scale_passthrough.1 "Unknown" ResponseScale.AGREEMENT_5
      ResponseScale.FREQUENCY_4 (by decide),
   harmonize_response_scale_passthrough.2.1 "Strongly agree"
      ResponseScale.AGREEMENT_5 ResponseScale.FREQUENCY_4 (by decide)⟩

/-- C2: `get_core_trend_questions` is exactly the subset of the core category
mapping (not of all four categories) whose `years_available` has at least 3
entries; its keys are the four attitude questions, and the demographic
question `job_title`, although available in 5 years, is excluded. -/
theorem get_core_trend_questions_core_only :
    UnifiedSchema.get_core_trend_questions =
      UnifiedSchema.core_questions.filter (fun p => 3 ≤ p.2.years_available.length) ∧
    UnifiedSchema.get_core_trend_questions.map Prod.fst =
      ["open_access_attitude", "open_data_attitude", "open_peer_review_attitude",
       "preprinting_attitude"] ∧
    (UnifiedSchema.get_all_questions.lookup "job_title").map
      (fun q => q.years_available.length) = some 5 ∧
    UnifiedSchema.get_core_trend_questions.lookup "job_title" = none := by
  exact ⟨rfl, by decide, by decide, by decide⟩

/-- C3: `get_longitudinal_questions k` contains exactly the entries of the
full catalogue with at least `k` available years, for every integer `k`; for
`k ≤ 0` it is the whole catalogue and for `k` above the maximum span (5) it
is empty. -/
theorem get_longitudinal_questions_threshold :
    (∀ (k : Int) (p : String × QuestionMapping),
        p ∈ UnifiedSchema.get_longitudinal_questions k ↔
          p ∈ UnifiedSchema.get_all_questions ∧
            k ≤ (p.2.years_available.length : Int)) ∧
    (∀ k : Int, k ≤ 0 →
        UnifiedSchema.get_longitudinal_questions k = UnifiedSchema.get_all_questions) ∧
    (∀ k : Int, 5 < k → UnifiedSchema.get_longitudinal_questions k = []) := by
  refine ⟨?_, ?_, ?_⟩
  · intro k p
    simp [UnifiedSchema.get_longitudinal_questions, List.mem_filter]
  · intro k hk
    have hb : ∀ p ∈ UnifiedSchema.get_all_questions,
        1 ≤ p.2.years_available.length := by decide
    apply List.filter_eq_self.mpr
    intro p hp
    have := hb p hp
    simp only [decide_eq_true_eq, ge_iff_le]
    omega
  · intro k hk
    have hb : ∀ p ∈ UnifiedSchema.get_all_questions,
        p.2.years_available.length ≤ 5 := by decide
    apply List.filter_eq_nil_iff.mpr
    intro p hp
    have := hb p hp
    simp only [decide_eq_true_eq, ge_iff_le]
    omega

/-- Witness for C3: at threshold 0 the full catalogue is returned, and at
threshold 6 (above the maximum 5-year span) the result is empty. -/
theorem get_longitudinal_questions_threshold_witness :
    UnifiedSchema.get_longitudinal_questions 0 = UnifiedSchema.get_all_questions ∧
    UnifiedSchema.get_longitudinal_questions 6 = [] :=
  ⟨get_longitudinal_questions_threshold.2.1 0 (by decide),
   get_longitudinal_questions_threshold.2.2 6 (by decide)⟩

/-- C4: `get_questions_by_year y` contains exactly the entries of the full
catalogue whose `years_available` contains `y`; for 2020 it is the empty
mapping, and for 2024 it holds the eight questions asked that year. -/
theorem get_questions_by_year_spec :
    (∀ (y : Int) (p : String × QuestionMapping),
        p ∈ UnifiedSchema.get_questions_by_year y ↔
          p ∈ UnifiedSchema.get_all_questions ∧ y ∈ p.2.years_available) ∧
    UnifiedSchema.get_questions_by_year 2020 = [] ∧
    (UnifiedSchema.get_questions_by_year 2024).map Prod.fst =
      ["open_access_attitude", "open_data_attitude", "open_peer_review_attitude",
       "preprinting_attitude", "job_title", "research_area", "publication_history",
       "organization_type"] := by
  refine ⟨?_, by decide, by decide⟩
  intro y p
  simp [UnifiedSchema.get_questions_by_year, List.mem_filter]

/-- C5: when the response is a member of the source scale and its first
occurrence index is below the target scale's length,
`harmonize_response_scale` returns the target label at that same position. -/
theorem harmonize_response_scale_positional :
    ∀ (r : String) (ss ts : List String) (hlt : ss.indexOf r < ts.length),
      r ∈ ss → harmonize_response_scale r ss ts = ts.get ⟨ss.indexOf r, hlt⟩ := by
  intro r ss ts hlt hm
  simp only [harmonize_response_scale, if_pos hm]
  rw [dif_pos hlt]

/-- Witness for C5: "Neutral" sits at index 2 of the agreement scale and maps
to "Sometimes", index 2 of the frequency scale. -/
theorem harmonize_response_scale_positional_witness :
    harmonize_response_scale "Neutral" ResponseScale.AGREEMENT_5
      ResponseScale.FREQUENCY_4 = "Sometimes" :=
  (harmonize_response_scale_positional "Neutral" ResponseScale.AGREEMENT_5
    ResponseScale.FREQUENCY_4 (by decide) (by decide)).trans (by decide)

/-- C6: `create_harmonized_column_mapping` is the projection of the full
catalogue to each question's `column_mappings`: its key list equals the
catalogue's key list, and its entry for "open_access_attitude" is the exact
year-to-column dictionary of that question. -/
theorem create_harmonized_column_mapping_spec :
    create_harmonized_column_mapping =
      UnifiedSchema.get_all_questions.map (fun p => (p.1, p.2.column_mappings)) ∧
    create_harmonized_column_mapping.map Prod.fst =
      UnifiedSchema.get_all_questions.map Prod.fst ∧
    create_harmonized_column_mapping.lookup "open_access_attitude" =
      some [(2021, "Q2.7_1"), (2022, "Q2.11_1"), (2023, "Q2.10.a"), (2024, "Q12_1")] := by
  exact ⟨by decide, by decide, by decide⟩

/-- C7: for every question of the full catalogue, the key set of
`column_mappings` equals the set of `years_available` exactly. -/
theorem column_mappings_keys_match_years :
    UnifiedSchema.get_all_questions.all (fun p =>
      decide ((p.2.column_mappings.map Prod.fst).toFinset =
        p.2.years_available.toFinset)) = true := by
  decide

/-- C8: question identifiers are unique across the four categories combined,
so the dict-update merge in `get_all_questions` overwrites nothing: it equals
the plain concatenation of the four category lists and its size is the sum of
their sizes. -/
theorem question_ids_unique :
    ((UnifiedSchema.core_questions ++ UnifiedSchema.demographic_questions ++
      UnifiedSchema.supplementary_questions ++
      UnifiedSchema.historical_questions).map Prod.fst).Nodup ∧
    UnifiedSchema.get_all_questions =
      UnifiedSchema.core_questions ++ UnifiedSchema.demographic_questions ++
      UnifiedSchema.supplementary_questions ++ UnifiedSchema.historical_questions ∧
    UnifiedSchema.get_all_questions.length =
      UnifiedSchema.core_questions.length + UnifiedSchema.demographic_questions.length +
      UnifiedSchema.supplementary_questions.length +
      UnifiedSchema.historical_questions.length := by
  exact ⟨by decide, rfl, rfl⟩

/-- C9: every public operation is total — `harmonize_response_scale` agrees
everywhere with its fallback-free `getD` restatement (so its list access is
never out of bounds, the index of a member being below the list's length),
and the year and threshold queries are plain filters of the full catalogue,
defined for every integer argument. -/
theorem operations_total :
    (∀ (r : String) (ss ts : List String),
        harmonize_response_scale r ss ts = harmonize_response_scale_total r ss ts) ∧
    (∀ (r : String) (ss : List String), r ∈ ss → ss.indexOf r < ss.length) ∧
    (∀ y : Int, UnifiedSchema.get_questions_by_year y =
        UnifiedSchema.get_all_questions.filter
          (fun p => decide (y ∈ p.2.years_available))) ∧
    (∀ k : Int, UnifiedSchema.get_longitudinal_questions k =
        UnifiedSchema.get_all_questions.filter
          (fun p => decide ((p.2.years_available.length : Int) ≥ k))) := by
  refine ⟨?_, fun r ss h => List.indexOf_lt_length.mpr h, fun y => rfl, fun k => rfl⟩
  intro r ss ts
  by_cases hm : r ∈ ss
  · simp only [harmonize_response_scale, harmonize_response_scale_total, if_pos hm]
    by_cases h : ss.indexOf r < ts.length
    · rw [dif_pos h, if_pos h, List.getD_eq_getElem ts r h]
      rfl
    · rw [dif_neg h, if_neg h]
  · simp [harmonize_response_scale, harmonize_response_scale_total, hm]

/-- Witness for C9: the index of the member "Yes" in the yes/no/unsure scale
is below that scale's length, by the theorem's in-bounds part. -/
theorem operations_total_witness :
    ResponseScale.YES_NO_UNSURE.indexOf "Yes" < ResponseScale.YES_NO_UNSURE.length :=
  operations_total.2.1 "Yes" ResponseScale.YES_NO_UNSURE (by decide)

/-- C10: in each of the four category mappings, in the full catalogue, and in
every query result derived from it, each entry's dictionary key equals the
`question_id` field of its `QuestionMapping` value. -/
theorem keys_match_question_id :
    UnifiedSchema.core_questions.all (fun p => p.1 == p.2.question_id) = true ∧
    UnifiedSchema.demographic_questions.all (fun p => p.1 == p.2.question_id) = true ∧
    UnifiedSchema.supplementary_questions.all (fun p => p.1 == p.2.question_id) = true ∧
    UnifiedSchema.historical_questions.all (fun p => p.1 == p.2.question_id) = true ∧
    UnifiedSchema.get_all_questions.all (fun p => p.1 == p.2.question_id) = true ∧
    (∀ y : Int, (UnifiedSchema.get_questions_by_year y).all
        (fun p => p.1 == p.2.question_id) = true) ∧
    (∀ k : Int, (UnifiedSchema.get_longitudinal_questions k).all
        (fun p => p.1 == p.2.question_id) = true) ∧
    UnifiedSchema.get_core_trend_questions.all
      (fun p => p.1 == p.2.question_id) = true := by
  have hall : UnifiedSchema.get_all_questions.all
      (fun p => p.1 == p.2.question_id) = true := by decide
  refine ⟨by decide, by decide, by decide, by decide, hall, ?_, ?_, by decide⟩
  · intro y
    rw [List.all_eq_true]
    intro p hp
    simp only [UnifiedSchema.get_questions_by_year] at hp
    exact List.all_eq_true.mp hall p (List.mem_filter.mp hp).1
  · intro k
    rw [List.all_eq_true]
    intro p hp
    simp only [UnifiedSchema.get_longitudinal_questions] at hp
    exact List.all_eq_true.mp hall p (List.mem_filter.mp hp).1
